import Mathlib

/-!
Verification of the order-lifecycle and credential/token logic of the bakery
storefront backend.  Definitions are shallow embeddings of the TypeScript
source: the storage layer (DatabaseStorage in the storage implementation
file), the route handlers (routes.ts, auth.ts), and the database schema
(the drizzle schema and the SQL migrations).  Timestamps are modeled as
natural numbers, JS strings as Lean strings (and, for the byte-level
password code, as lists of characters), nullable columns as Option.
-/

namespace Backend

/-! ## Order data model (drizzle schema, orders table)

Columns of the orders table: id, user_id (nullable), customer_name, email,
phone, address, items (jsonb), total, status (default value pending),
created_at (default now), status_history (jsonb, default the empty array),
tracking_number (nullable), estimated_delivery (nullable), notes (nullable),
updated_at (default now). -/

/-- An item of an order, as validated by insertOrderSchema in
shared-schema.ts: productId (positive int) and quantity (int, at least 1). -/
structure OrderItem where
  productId : Nat
  quantity : Nat
deriving DecidableEq

/-- One entry of the status_history jsonb column, as built by
DatabaseStorage.updateOrderStatus: status, timestamp, and the optional
trackingNumber, estimatedDelivery and notes supplied with the update. -/
structure HistoryEntry where
  status : String
  timestamp : Nat
  trackingNumber : Option String
  estimatedDelivery : Option Nat
  notes : Option String
deriving DecidableEq

/-- A row of the orders table. -/
structure Order where
  id : Nat
  userId : Option Nat
  customerName : String
  email : String
  phone : String
  address : String
  items : List OrderItem
  total : Int
  status : String
  statusHistory : List HistoryEntry
  trackingNumber : Option String
  estimatedDelivery : Option Nat
  notes : Option String
  createdAt : Nat
  updatedAt : Nat
deriving DecidableEq

/-- The request body accepted by POST /api/orders, as validated by
insertOrderSchema in shared-schema.ts: customerName, email, phone, address,
items, total, and optional notes.  Unknown keys (status, statusHistory, ...)
are stripped by the zod parser. -/
structure InsertOrder where
  customerName : String
  email : String
  phone : String
  address : String
  items : List OrderItem
  total : Int
  notes : Option String
deriving DecidableEq

/-- DatabaseStorage.createOrder as invoked from POST /api/orders: the parsed
body plus the session user id is inserted into the orders table; every
column that is not part of the insert takes its schema default, in
particular status defaults to the string pending and status_history
defaults to the empty jsonb array. -/
def createOrder (id : Nat) (userId : Option Nat) (input : InsertOrder) (now : Nat) : Order :=
  { id := id
    userId := userId
    customerName := input.customerName
    email := input.email
    phone := input.phone
    address := input.address
    items := input.items
    total := input.total
    status := "pending"
    statusHistory := []
    trackingNumber := none
    estimatedDelivery := none
    notes := input.notes
    createdAt := now
    updatedAt := now }

/-- The JS truthiness fallback `supplied || existing` applied to a nullable
string column: an absent value and the empty string both fall back to the
existing value. -/
def jsOrString : Option String → Option String → Option String
  | some s, existing => if s = "" then existing else some s
  | none, existing => existing

/-- DatabaseStorage.updateOrderStatus applied to the fetched current order:
build the candidate history entry from the new status, the current time and
the supplied optional fields; append it only when the status actually
changed; then persist the new status, the (JS-truthiness) merged
trackingNumber, estimatedDelivery and notes, and updatedAt = now. -/
def updateOrderStatus (o : Order) (status : String) (trackingNumber : Option String)
    (estimatedDelivery : Option Nat) (notes : Option String) (now : Nat) : Order :=
  let entry : HistoryEntry :=
    { status := status
      timestamp := now
      trackingNumber := trackingNumber
      estimatedDelivery := estimatedDelivery
      notes := notes }
  let statusHistory :=
    if o.status ≠ status then o.statusHistory ++ [entry] else o.statusHistory
  { o with
    status := status
    statusHistory := statusHistory
    trackingNumber := jsOrString trackingNumber o.trackingNumber
    estimatedDelivery := (estimatedDelivery).orElse (fun _ => o.estimatedDelivery)
    notes := jsOrString notes o.notes
    updatedAt := now }

/-- The patch PUT /api/orders/:id passes to DatabaseStorage.updateOrder:
exactly the address, phone and items keys of the request body (absent keys
are skipped by the ORM update). -/
structure OwnerPatch where
  address : Option String
  phone : Option String
  items : Option (List OrderItem)
deriving DecidableEq

/-- DatabaseStorage.updateOrder with the owner patch: set the supplied
fields and updatedAt = now, leave everything else as stored. -/
def updateOrder (o : Order) (p : OwnerPatch) (now : Nat) : Order :=
  { o with
    address := p.address.getD o.address
    phone := p.phone.getD o.phone
    items := p.items.getD o.items
    updatedAt := now }

/-- DatabaseStorage.getOrderById: select the row with the given primary
key. -/
def getOrderById (st : List Order) (id : Nat) : Option Order :=
  st.find? (fun o => o.id == id)

/-- Store-level DatabaseStorage.updateOrderStatus: fetch the current order
(returning the store unchanged and no order when the id is absent), rebuild
it with updateOrderStatus, and write it back. -/
def updateOrderStatusDB (st : List Order) (id : Nat) (status : String)
    (trackingNumber : Option String) (estimatedDelivery : Option Nat)
    (notes : Option String) (now : Nat) : List Order × Option Order :=
  match getOrderById st id with
  | none => (st, none)
  | some o =>
    let o' := updateOrderStatus o status trackingNumber estimatedDelivery notes now
    (st.map (fun x => if x.id = id then o' else x), some o')

/-- Outcome of an order route handler: a JSON order on success, or an HTTP
status code and error message. -/
inductive OrderResult where
  | ok (o : Order)
  | err (code : Nat) (msg : String)
deriving DecidableEq

/-- The order payload of a successful handler outcome, if any. -/
def OrderResult.getOk? : OrderResult → Option Order
  | .ok o => some o
  | .err _ _ => none

/-- The statuses PUT /api/orders/:id treats as closed for owner edits. -/
def terminalStatuses : List String := ["completed", "cancelled", "delivered"]

/-- The PUT /api/orders/:id handler for an authenticated requester: 404 when
the order is absent, 403 when the requester is not the owning user, 400 when
the status is terminal, otherwise update address, phone and items through
DatabaseStorage.updateOrder and return the updated order. -/
def putOrderHandler (st : List Order) (requesterId : Nat) (id : Nat)
    (p : OwnerPatch) (now : Nat) : List Order × OrderResult :=
  match getOrderById st id with
  | none => (st, .err 404 "Order not found")
  | some o =>
    if o.userId ≠ some requesterId then
      (st, .err 403 "You can only update your own orders")
    else if terminalStatuses.contains o.status then
      (st, .err 400 "Cannot edit a completed or cancelled order")
    else
      let o' := updateOrder o p now
      (st.map (fun x => if x.id = id then o' else x), .ok o')

/-- The GET /api/orders/:id handler: it consults only the order id, never
the session, and returns the full stored order to whoever asked. -/
def getOrderHandler (st : List Order) (id : Nat) : OrderResult :=
  match getOrderById st id with
  | none => .err 404 "Order not found"
  | some o => .ok o

/-- The status-history invariant: when the history is nonempty, its last
entry carries the current status of the order. -/
def histInv (o : Order) : Bool :=
  o.statusHistory.getLast?.all (fun e => e.status == o.status)

/-! Sample data used by witnesses and counterexamples. -/

/-- A valid POST /api/orders body. -/
def sampleInsertOrder : InsertOrder :=
  { customerName := "Alice"
    email := "alice@example.com"
    phone := "0712"
    address := "1 Bakery Lane"
    items := [{ productId := 1, quantity := 2 }]
    total := 2000
    notes := none }

/-- The order persisted for that body by user 5 at time 0. -/
def sampleOrder : Order := createOrder 1 (some 5) sampleInsertOrder 0

/-- An order that already carries a tracking number. -/
def sampleOrderTracked : Order := { sampleOrder with trackingNumber := some "OLD" }

/-- A patch updating only the delivery address. -/
def samplePatch : OwnerPatch := { address := some "2 Oven Road", phone := none, items := none }

/-! ## User data model (users table)

The repository carries two conflicting declarations of the default of the
is_admin column: the SQL migration creating the users table declares
DEFAULT true, while the drizzle schema file declares a default of false.
At runtime an insert that omits the column receives the default of the
database the migrations built. -/

/-- The is_admin default of the CREATE TABLE users statement in the SQL
migration. -/
def migrationIsAdminDefault : Bool := true

/-- The is_admin default declared by the drizzle schema file. -/
def drizzleIsAdminDefault : Bool := false

/-- A row of the users table (including the password-reset columns added by
a later migration). -/
structure User where
  id : Nat
  username : String
  password : String
  email : String
  fullName : Option String
  phone : Option String
  address : Option String
  isAdmin : Bool
  isVerified : Bool
  verificationCode : Option String
  verificationExpiry : Option Nat
  createdAt : Nat
  notificationsEnabled : Bool
  passwordResetToken : Option String
  passwordResetTokenExpiry : Option Nat
deriving DecidableEq

/-- The values DatabaseStorage.createUser may insert; a field left none is
omitted from the insert and takes the column default. -/
structure InsertUser where
  username : String
  password : String
  email : String
  fullName : Option String
  phone : Option String
  address : Option String
  isAdmin : Option Bool
  isVerified : Option Bool
  verificationCode : Option String
  verificationExpiry : Option Nat
  notificationsEnabled : Option Bool
deriving DecidableEq

/-- DatabaseStorage.createUser: insert the supplied values; omitted columns
take the defaults of the database built from the migrations of the
repository, in particular is_admin takes the DEFAULT of the CREATE TABLE
statement. -/
def createUser (id : Nat) (u : InsertUser) (now : Nat) : User :=
  { id := id
    username := u.username
    password := u.password
    email := u.email
    fullName := u.fullName
    phone := u.phone
    address := u.address
    isAdmin := u.isAdmin.getD migrationIsAdminDefault
    isVerified := u.isVerified.getD false
    verificationCode := u.verificationCode
    verificationExpiry := u.verificationExpiry
    createdAt := now
    notificationsEnabled := u.notificationsEnabled.getD true
    passwordResetToken := none
    passwordResetTokenExpiry := none }

/-- The insert performed by the Google OAuth strategy for a fresh email:
username, email, an empty password placeholder and isVerified false; no
isAdmin value is supplied. -/
def oauthInsertUser : InsertUser :=
  { username := "Gabby"
    password := ""
    email := "gabby@example.com"
    fullName := none
    phone := none
    address := none
    isAdmin := none
    isVerified := some false
    verificationCode := none
    verificationExpiry := none
    notificationsEnabled := none }

/-- DatabaseStorage.getUserById. -/
def getUserById (st : List User) (id : Nat) : Option User :=
  st.find? (fun u => u.id == id)

/-- DatabaseStorage.getUserByPasswordResetToken: select the user whose
stored password_reset_token column equals the supplied (already hashed)
token; a cleared (null) column matches nothing. -/
def getUserByPasswordResetToken (st : List User) (tok : String) : Option User :=
  st.find? (fun u => u.passwordResetToken == some tok)

/-! ## Auth route handlers (auth.ts) -/

/-- The POST /api/reset-password handler, parameterized by the one-way token
hash (sha256 in the source) and the password hash: reject when token or
password is missing, hash the raw token, look the user up by the hashed
value, reject when no user matches or the stored expiry is missing or past,
otherwise store the new password hash and clear both reset-token columns.
The second component is the error message, none on success. -/
def resetPasswordHandler (hashTok : String → String) (hashPw : String → String)
    (st : List User) (token password : String) (now : Nat) :
    List User × Option String :=
  if token = "" ∨ password = "" then
    (st, some "Token and new password are required.")
  else
    match getUserByPasswordResetToken st (hashTok token) with
    | none => (st, some "Invalid or expired password reset token.")
    | some u =>
      match u.passwordResetTokenExpiry with
      | none => (st, some "Invalid or expired password reset token.")
      | some exp =>
        if now > exp then (st, some "Invalid or expired password reset token.")
        else
          (st.map (fun x =>
            if x.id = u.id then
              { x with
                password := hashPw password
                passwordResetToken := none
                passwordResetTokenExpiry := none }
            else x), none)

/-- The POST /api/verify-email handler for the authenticated user id: 404
when the user row is gone, reject already-verified accounts, reject when no
code is stored, reject a wrong code with the invalid-code message, reject a
correct but expired code with the distinct expired message, otherwise mark
the user verified and clear the verification columns.  The second component
is the response message. -/
def verifyEmailHandler (st : List User) (userId : Nat) (code : String) (now : Nat) :
    List User × String :=
  match getUserById st userId with
  | none => (st, "User not found")
  | some u =>
    if u.isVerified then (st, "Email already verified")
    else if u.verificationCode.getD "" = "" ∨ u.verificationExpiry = none then
      (st, "No verification code found. Please request a new code.")
    else if u.verificationCode ≠ some code then
      (st, "Invalid verification code")
    else if now > u.verificationExpiry.getD 0 then
      (st, "Verification code expired. Please request a new code.")
    else
      (st.map (fun x =>
        if x.id = userId then
          { x with isVerified := true, verificationCode := none, verificationExpiry := none }
        else x), "Email verified successfully")

/-- The number of minutes after which a verification code expires, as set by
the registration, login and resend handlers. -/
def verificationExpiryMinutes : Nat := 30

/-! ## Password hashing (DatabaseStorage.hashPassword / comparePasswords)

The byte-level behavior of the Node primitives is embedded: strings are
lists of characters, buffers are lists of bytes, and the scrypt key
derivation is an uninterpreted parameter (a pure function of password and
salt).  A rejected promise of the JS code is an error value. -/

/-- JS String.prototype.split with a single-character separator:
splitting the empty string yields one empty field, and every occurrence of
the separator opens a new field. -/
def splitOnChar (c : Char) : List Char → List (List Char)
  | [] => [[]]
  | x :: xs =>
    if x = c then [] :: splitOnChar c xs
    else
      match splitOnChar c xs with
      | [] => [[x]]
      | h :: t => (x :: h) :: t

/-- The value of a hexadecimal digit, in either case. -/
def hexVal (c : Char) : Option Nat :=
  if '0' ≤ c ∧ c ≤ '9' then some (c.toNat - '0'.toNat)
  else if 'a' ≤ c ∧ c ≤ 'f' then some (c.toNat - 'a'.toNat + 10)
  else if 'A' ≤ c ∧ c ≤ 'F' then some (c.toNat - 'A'.toNat + 10)
  else none

/-- The lowercase hexadecimal digit of a value below 16, as produced by
Buffer.toString with the hex encoding. -/
def hexDigitChar (n : Nat) : Char :=
  if n < 10 then Char.ofNat ('0'.toNat + n) else Char.ofNat ('a'.toNat + n - 10)

/-- Buffer.toString with the hex encoding: two lowercase digits per byte. -/
def hexEncode : List Nat → List Char
  | [] => []
  | b :: bs => hexDigitChar (b % 256 / 16) :: hexDigitChar (b % 16) :: hexEncode bs

/-- Buffer.from with the hex encoding: consume digit pairs from the left
and stop silently at the first invalid digit or at a dangling half pair. -/
def hexDecode : List Char → List Nat
  | c1 :: c2 :: rest =>
    (match hexVal c1, hexVal c2 with
     | some h, some l => (16 * h + l) :: hexDecode rest
     | _, _ => [])
  | _ => []

/-- crypto.timingSafeEqual: throws when the buffers differ in length,
otherwise reports whether they are equal. -/
def timingSafeEqual (a b : List Nat) : Except Unit Bool :=
  if a.length = b.length then .ok (a == b) else .error ()

/-- DatabaseStorage.hashPassword with the randomly drawn salt made
explicit: the hex encoding of the derived key, a dot, and the salt. -/
def hashPassword (scrypt : List Char → List Char → List Nat)
    (password salt : List Char) : List Char :=
  hexEncode (scrypt password salt) ++ '.' :: salt

/-- DatabaseStorage.comparePasswords: split the stored string at dots,
destructure the first two fields as hash and salt (when the stored string
holds no dot the salt is undefined and the scrypt call throws), hex-decode
the hash field, derive the key from the supplied password, and compare with
crypto.timingSafeEqual, which itself throws on a length mismatch. -/
def comparePasswords (scrypt : List Char → List Char → List Nat)
    (supplied stored : List Char) : Except Unit Bool :=
  let parts := splitOnChar '.' stored
  let hashed := parts.headD []
  match parts[1]? with
  | none => .error ()
  | some salt => timingSafeEqual (hexDecode hashed) (scrypt supplied salt)

/-- The keylen argument of every scrypt call in the source. -/
def scryptKeyLen : Nat := 64

/-! More sample data for witnesses. -/

/-- A verified user holding a pending password-reset token (the stored
value is the hash of the raw token raw under the sample token hash used in
the witnesses, which appends H). -/
def tokUser : User :=
  { id := 3
    username := "bob"
    password := "oldhash"
    email := "bob@example.com"
    fullName := none
    phone := none
    address := none
    isAdmin := false
    isVerified := true
    verificationCode := none
    verificationExpiry := none
    createdAt := 0
    notificationsEnabled := true
    passwordResetToken := some "rawH"
    passwordResetTokenExpiry := some 100 }

/-- The same user after a successful reset at time 50 with new password
new (hashed by the sample password hash, which appends P). -/
def tokUserCleared : User :=
  { tokUser with
    password := "newP"
    passwordResetToken := none
    passwordResetTokenExpiry := none }

/-- An unverified user holding a verification code that expired at time
100. -/
def sampleUnverifiedUser : User :=
  { id := 9
    username := "carol"
    password := "h"
    email := "carol@example.com"
    fullName := none
    phone := none
    address := none
    isAdmin := false
    isVerified := false
    verificationCode := some "123456"
    verificationExpiry := some 100
    createdAt := 0
    notificationsEnabled := true
    passwordResetToken := none
    passwordResetTokenExpiry := none }

/-! ## Helper lemmas -/

/-- Appending one element makes it the last. -/
theorem getLast?_append_singleton {α : Type} (l : List α) (a : α) :
    (l ++ [a]).getLast? = some a :=
  List.getLast?_concat l

/-! ## Claim C1: the status-history invariant -/

/-- C1 counterexample: as stated, the claim fails right after order
creation: the persisted statusHistory is the empty jsonb default, so there
is no last entry at all (in particular none whose status equals the current
status pending). -/
theorem createOrder_history_empty_at_creation :
    ¬ ∃ e, (createOrder 1 (some 5) sampleInsertOrder 0).statusHistory.getLast? = some e ∧
      e.status = (createOrder 1 (some 5) sampleInsertOrder 0).status := by
  rintro ⟨e, he, -⟩
  simp [createOrder] at he

/-- C1 (amended): when the statusHistory is nonempty its last entry carries
the current status.  The invariant holds vacuously after creation (the
history starts empty) and is preserved by updateOrderStatus and by
updateOrder with the owner patch of PUT /api/orders/:id. -/
theorem statusHistory_last_inv_preserved :
    (∀ id uid input now, histInv (createOrder id uid input now) = true) ∧
    (∀ o s tn ed nt now, histInv o = true →
      histInv (updateOrderStatus o s tn ed nt now) = true) ∧
    (∀ o p now, histInv o = true → histInv (updateOrder o p now) = true) := by
  refine ⟨fun id uid input now => rfl, ?_, ?_⟩
  · intro o s tn ed nt now h
    by_cases hs : o.status = s
    · subst hs
      simpa [histInv, updateOrderStatus] using h
    · simp [histInv, updateOrderStatus, hs, getLast?_append_singleton]
  · intro o p now h
    simpa [histInv, updateOrder] using h

/-- C1 witness: the preserved invariant evaluated on a concrete update. -/
theorem statusHistory_last_inv_preserved_witness :
    histInv (updateOrderStatus sampleOrder "shipped" (some "T1") none none 3) = true :=
  statusHistory_last_inv_preserved.2.1 sampleOrder "shipped" (some "T1") none none 3 (by decide)

/-! ## Claim C2: order creation -/

/-- C2 counterexample: createOrder does not seed the status history; the
persisted history of a freshly created order has length 0, not 1. -/
theorem createOrder_not_seeded_counterexample :
    (createOrder 1 (some 5) sampleInsertOrder 7).statusHistory.length ≠ 1 ∧
    (createOrder 1 (some 5) sampleInsertOrder 7).status = "pending" := by
  constructor
  · decide
  · rfl

/-- C2 (amended): for every request body, user and time, the persisted
order has status pending and an empty statusHistory (the schema defaults);
no seed entry is written. -/
theorem createOrder_pending_empty_history (id : Nat) (uid : Option Nat)
    (input : InsertOrder) (now : Nat) :
    (createOrder id uid input now).status = "pending" ∧
    (createOrder id uid input now).statusHistory = [] :=
  ⟨rfl, rfl⟩

/-! ## Claim C6: the is_admin default -/

/-- C6: the repository contradicts itself on the is_admin default.  The
CREATE TABLE migration declares DEFAULT true while the drizzle schema
declares false, so a user created without an explicit isAdmin value (here
the OAuth insert) is persisted as an administrator. -/
theorem createUser_default_isAdmin_bug :
    (createUser 1 oauthInsertUser 0).isAdmin = true ∧
    migrationIsAdminDefault ≠ drizzleIsAdminDefault := by
  decide

/-! ## Claim C10: unauthenticated single-order read -/

/-- C10: the GET /api/orders/:id handler performs neither an authentication
nor an ownership check (it does not even receive a requester identity): any
stored order is returned in full to any caller that knows its id. -/
theorem getOrder_no_auth (st : List Order) (id : Nat) (o : Order)
    (h : getOrderById st id = some o) :
    getOrderHandler st id = .ok o := by
  simp [getOrderHandler, h]

/-- C10 witness: the sample order is served without any credential. -/
theorem getOrder_no_auth_witness :
    getOrderHandler [sampleOrder] 1 = .ok sampleOrder :=
  getOrder_no_auth [sampleOrder] 1 sampleOrder rfl

/-! ## Claim C3: updateOrderStatus -/

/-- C3 counterexample: a supplied empty-string trackingNumber does not
become the persisted value; the JS truthiness fallback keeps the existing
one.  The order already tracked as OLD keeps OLD after an update supplying
the empty string. -/
theorem updateOrderStatus_empty_tracking_fallback :
    (updateOrderStatus sampleOrderTracked "shipped" (some "") none none 9).trackingNumber =
      some "OLD" ∧
    (updateOrderStatus sampleOrderTracked "shipped" (some "") none none 9).trackingNumber ≠
      some "" := by
  constructor
  · decide
  · decide

/-- C3 (amended): updateOrderStatus appends exactly one history entry
(carrying the new status, the current time and the supplied optional
fields) iff the new status differs from the current one; it persists the
new status and updatedAt = now; trackingNumber and notes take the supplied
value when it is nonempty and fall back to the existing value when absent
or empty (JS truthiness); estimatedDelivery takes the supplied value and
falls back only when absent; an absent order id returns no order and
leaves the store unchanged. -/
theorem updateOrderStatus_spec_amended (st : List Order) (id : Nat) (s : String)
    (tn : Option String) (ed : Option Nat) (nt : Option String) (now : Nat) :
    (getOrderById st id = none →
      updateOrderStatusDB st id s tn ed nt now = (st, none)) ∧
    (∀ o, getOrderById st id = some o →
      (updateOrderStatusDB st id s tn ed nt now).2.map Order.status = some s ∧
      (updateOrderStatusDB st id s tn ed nt now).2.map Order.updatedAt = some now ∧
      (s ≠ o.status →
        (updateOrderStatusDB st id s tn ed nt now).2.map Order.statusHistory =
          some (o.statusHistory ++
            [{ status := s, timestamp := now, trackingNumber := tn,
               estimatedDelivery := ed, notes := nt }])) ∧
      (s = o.status →
        (updateOrderStatusDB st id s tn ed nt now).2.map Order.statusHistory =
          some o.statusHistory) ∧
      (∀ t, tn = some t → t ≠ "" →
        (updateOrderStatusDB st id s tn ed nt now).2.map Order.trackingNumber =
          some (some t)) ∧
      ((tn = none ∨ tn = some "") →
        (updateOrderStatusDB st id s tn ed nt now).2.map Order.trackingNumber =
          some o.trackingNumber) ∧
      (∀ d, ed = some d →
        (updateOrderStatusDB st id s tn ed nt now).2.map Order.estimatedDelivery =
          some (some d)) ∧
      (ed = none →
        (updateOrderStatusDB st id s tn ed nt now).2.map Order.estimatedDelivery =
          some o.estimatedDelivery) ∧
      (∀ t, nt = some t → t ≠ "" →
        (updateOrderStatusDB st id s tn ed nt now).2.map Order.notes = some (some t)) ∧
      ((nt = none ∨ nt = some "") →
        (updateOrderStatusDB st id s tn ed nt now).2.map Order.notes = some o.notes)) := by
  constructor
  · intro h
    simp [updateOrderStatusDB, h]
  · intro o ho
    simp only [updateOrderStatusDB, ho, Option.map_some]
    refine ⟨rfl, rfl, ?_, ?_, ?_, ?_, ?_, ?_, ?_, ?_⟩
    · intro hne
      simp [updateOrderStatus, Ne.symm hne]
    · intro heq
      simp [updateOrderStatus, heq.symm]
    · intro t ht hne
      subst ht
      simp [updateOrderStatus, jsOrString, hne]
    · rintro (ht | ht) <;> subst ht <;> simp [updateOrderStatus, jsOrString]
    · intro d hd
      subst hd
      simp [updateOrderStatus, Option.orElse]
    · intro hd
      subst hd
      simp [updateOrderStatus, Option.orElse]
    · intro t ht hne
      subst ht
      simp [updateOrderStatus, jsOrString, hne]
    · rintro (ht | ht) <;> subst ht <;> simp [updateOrderStatus, jsOrString]

/-- C3 witness: updating the sample order to shipped with tracking number
T1 persists status shipped and trackingNumber T1. -/
theorem updateOrderStatus_spec_amended_witness :
    (updateOrderStatusDB [sampleOrder] 1 "shipped" (some "T1") none none 9).2.map
      Order.status = some "shipped" ∧
    (updateOrderStatusDB [sampleOrder] 1 "shipped" (some "T1") none none 9).2.map
      Order.trackingNumber = some (some "T1") := by
  have h := (updateOrderStatus_spec_amended [sampleOrder] 1 "shipped" (some "T1")
    none none 9).2 sampleOrder rfl
  exact ⟨h.1, h.2.2.2.2.1 "T1" rfl (by decide)⟩

/-! ## Claim C9: owner-initiated order update -/

/-- C9: the PUT /api/orders/:id handler succeeds exactly when the requester
owns the order and its status is not terminal; on success only address,
phone, items (and updatedAt) change while every other field is preserved;
on failure the store is untouched and no order is returned. -/
theorem ownerUpdate_frame (st : List Order) (req id : Nat) (p : OwnerPatch) (now : Nat)
    (o : Order) (h : getOrderById st id = some o) :
    ((putOrderHandler st req id p now).2.getOk?.isSome = true ↔
      (o.userId = some req ∧ o.status ∉ terminalStatuses)) ∧
    (∀ o', (putOrderHandler st req id p now).2.getOk? = some o' →
      o'.status = o.status ∧ o'.statusHistory = o.statusHistory ∧
      o'.total = o.total ∧ o'.trackingNumber = o.trackingNumber ∧
      o'.estimatedDelivery = o.estimatedDelivery ∧ o'.customerName = o.customerName ∧
      o'.email = o.email ∧ o'.createdAt = o.createdAt ∧ o'.userId = o.userId ∧
      o'.notes = o.notes ∧ o'.id = o.id ∧
      o'.address = p.address.getD o.address ∧ o'.phone = p.phone.getD o.phone ∧
      o'.items = p.items.getD o.items ∧ o'.updatedAt = now) ∧
    (¬ (o.userId = some req ∧ o.status ∉ terminalStatuses) →
      (putOrderHandler st req id p now).1 = st ∧
      (putOrderHandler st req id p now).2.getOk? = none) := by
  by_cases huid : o.userId = some req
  · by_cases hterm : o.status ∈ terminalStatuses
    · simp [putOrderHandler, h, huid, hterm, OrderResult.getOk?]
    · refine ⟨?_, ?_, ?_⟩
      · simp [putOrderHandler, h, huid, hterm, OrderResult.getOk?]
      · intro o' ho'
        simp [putOrderHandler, h, huid, hterm, OrderResult.getOk?] at ho'
        subst ho'
        simp [updateOrder]
      · intro hc
        exact absurd ⟨huid, hterm⟩ hc
  · simp [putOrderHandler, h, huid, OrderResult.getOk?]

/-- C9 witness: the owner (user 5) can edit the pending sample order, a
different user (6) cannot and the store is left unchanged. -/
theorem ownerUpdate_frame_witness :
    (putOrderHandler [sampleOrder] 5 1 samplePatch 9).2.getOk?.isSome = true ∧
    (putOrderHandler [sampleOrder] 6 1 samplePatch 9).1 = [sampleOrder] := by
  constructor
  · exact (ownerUpdate_frame [sampleOrder] 5 1 samplePatch 9 sampleOrder rfl).1.mpr
      ⟨rfl, by decide⟩
  · exact ((ownerUpdate_frame [sampleOrder] 6 1 samplePatch 9 sampleOrder rfl).2.2
      (by decide)).1

/-! ## Claim C8: expired verification code -/

/-- C8: an unverified user submitting the exact stored code after its
expiry is rejected with the expired message, the store is untouched, and
that message differs from the wrong-code message (the handler checks code
equality before expiry, so the expired branch is reached even though the
code matches). -/
theorem verifyEmail_expired_distinct (st : List User) (uid : Nat) (code : String)
    (now e : Nat) (u : User)
    (hu : getUserById st uid = some u)
    (hverified : u.isVerified = false)
    (hcode : u.verificationCode = some code)
    (hne : code ≠ "")
    (hexp : u.verificationExpiry = some e)
    (hlate : e < now) :
    verifyEmailHandler st uid code now =
      (st, "Verification code expired. Please request a new code.") ∧
    "Verification code expired. Please request a new code." ≠
      "Invalid verification code" := by
  constructor
  · simp [verifyEmailHandler, hu, hverified, hcode, hne, hexp, hlate]
  · decide

/-- C8 witness: the sample unverified user submits the stored code 123456
at time 200, past the stored expiry 100. -/
theorem verifyEmail_expired_distinct_witness :
    verifyEmailHandler [sampleUnverifiedUser] 9 "123456" 200 =
      ([sampleUnverifiedUser], "Verification code expired. Please request a new code.") ∧
    "Verification code expired. Please request a new code." ≠
      "Invalid verification code" :=
  verifyEmail_expired_distinct [sampleUnverifiedUser] 9 "123456" 200 100
    sampleUnverifiedUser rfl rfl rfl (by decide) rfl (by decide)

/-! ## Password model helper lemmas -/

/-- The hexadecimal digit of a value below 16 decodes back to it. -/
theorem hexVal_hexDigitChar (n : Nat) (h : n < 16) :
    hexVal (hexDigitChar n) = some n := by
  interval_cases n <;> decide

/-- Hexadecimal digits are never the dot separator. -/
theorem hexDigitChar_ne_dot (n : Nat) (h : n < 16) : hexDigitChar n ≠ '.' := by
  interval_cases n <;> decide

/-- Hex encoding followed by hex decoding restores a byte list. -/
theorem hexDecode_hexEncode (bs : List Nat) (hb : ∀ b ∈ bs, b < 256) :
    hexDecode (hexEncode bs) = bs := by
  induction bs with
  | nil => rfl
  | cons b bs ih =>
    have hb1 : b < 256 := hb b (by simp)
    have h1 : b % 256 / 16 < 16 := by omega
    have h2 : b % 16 < 16 := by omega
    simp only [hexEncode, hexDecode, hexVal_hexDigitChar _ h1, hexVal_hexDigitChar _ h2]
    congr 1
    · omega
    · exact ih (fun x hx => hb x (by simp [hx]))

/-- The dot separator never occurs in a hex encoding. -/
theorem dot_not_mem_hexEncode (bs : List Nat) : '.' ∉ hexEncode bs := by
  induction bs with
  | nil => simp [hexEncode]
  | cons b bs ih =>
    have h1 : b % 256 / 16 < 16 := by omega
    have h2 : b % 16 < 16 := by omega
    simp only [hexEncode, List.mem_cons, not_or]
    exact ⟨Ne.symm (hexDigitChar_ne_dot _ h1), Ne.symm (hexDigitChar_ne_dot _ h2), ih⟩

/-- Splitting a string that does not contain the separator yields one
field. -/
theorem splitOnChar_not_mem (c : Char) (l : List Char) (h : c ∉ l) :
    splitOnChar c l = [l] := by
  induction l with
  | nil => rfl
  | cons x xs ih =>
    have hx : ¬ x = c := by
      intro hc
      exact h (by simp [hc])
    have h' : c ∉ xs := fun hm => h (by simp [hm])
    simp [splitOnChar, hx, ih h']

/-- Splitting at the first separator occurrence detaches the prefix. -/
theorem splitOnChar_append (c : Char) (a b : List Char) (h : c ∉ a) :
    splitOnChar c (a ++ c :: b) = a :: splitOnChar c b := by
  induction a with
  | nil => simp [splitOnChar]
  | cons x xs ih =>
    have hx : ¬ x = c := by
      intro hc
      exact h (by simp [hc])
    have h' : c ∉ xs := fun hm => h (by simp [hm])
    simp [splitOnChar, hx, ih h']

/-! ## Claim C4: comparePasswords on malformed stored hashes -/

/-- C4 counterexample: a stored hash without the dot separator makes the
salt undefined, the scrypt call rejects and comparePasswords throws instead
of returning false. -/
theorem comparePasswords_malformed_throws_counterexample :
    comparePasswords (fun _ _ => List.replicate 64 0) ['p'] ['x'] = .error () ∧
    comparePasswords (fun _ _ => List.replicate 64 0) ['p'] ['x'] ≠ .ok false := by
  have h : comparePasswords (fun _ _ => List.replicate 64 0) ['p'] ['x'] = .error () := rfl
  refine ⟨h, ?_⟩
  rw [h]
  exact fun hc => Except.noConfusion hc

/-- C4 (amended): for a stored hash that lacks the dot separator, or whose
first segment hex-decodes to a byte count different from the scrypt key
length, comparePasswords throws (an undefined salt rejects the scrypt
call; a length mismatch makes timingSafeEqual throw); it does not return
false. -/
theorem comparePasswords_malformed_errors (scrypt : List Char → List Char → List Nat)
    (hlen : ∀ p s, (scrypt p s).length = scryptKeyLen) (p stored : List Char)
    (hmal : (splitOnChar '.' stored)[1]? = none ∨
      (hexDecode ((splitOnChar '.' stored).headD [])).length ≠ scryptKeyLen) :
    comparePasswords scrypt p stored = .error () := by
  rcases hmal with hm | hm
  · simp [comparePasswords, hm]
  · rcases hsel : (splitOnChar '.' stored)[1]? with _ | salt
    · simp [comparePasswords, hsel]
    · rw [List.headD_eq_head?] at hm
      simp [comparePasswords, hsel, timingSafeEqual, hlen, hm]

/-- C4 witness: a two-character hex segment decodes to one byte, not 64, so
the comparison throws. -/
theorem comparePasswords_malformed_errors_witness :
    comparePasswords (fun _ _ => List.replicate 64 0) ['p'] ['a', 'b', '.', 'c'] =
      .error () :=
  comparePasswords_malformed_errors (fun _ _ => List.replicate 64 0)
    (fun _ _ => rfl) ['p'] ['a', 'b', '.', 'c'] (by decide)

/-! ## Claim C5: hash then verify round trip, salt randomization -/

/-- C5: for any scrypt derivation whose outputs are byte lists, any
password and any two distinct dot-free salts (the source draws 16 random
bytes and hex-encodes them, so salts are dot-free and distinct draws
differ), hashing under either salt produces a stored string that verifies
the password, and the two stored strings differ. -/
theorem hashPassword_verify_roundtrip_distinct
    (scrypt : List Char → List Char → List Nat) (p s1 s2 : List Char)
    (hb1 : ∀ b ∈ scrypt p s1, b < 256) (hb2 : ∀ b ∈ scrypt p s2, b < 256)
    (hd1 : '.' ∉ s1) (hd2 : '.' ∉ s2) (hne : s1 ≠ s2) :
    comparePasswords scrypt p (hashPassword scrypt p s1) = .ok true ∧
    comparePasswords scrypt p (hashPassword scrypt p s2) = .ok true ∧
    hashPassword scrypt p s1 ≠ hashPassword scrypt p s2 := by
  have hsplit : ∀ s, '.' ∉ s →
      splitOnChar '.' (hashPassword scrypt p s) = [hexEncode (scrypt p s), s] := by
    intro s hd
    rw [hashPassword, splitOnChar_append _ _ _ (dot_not_mem_hexEncode _),
      splitOnChar_not_mem _ _ hd]
  have key : ∀ s, '.' ∉ s → (∀ b ∈ scrypt p s, b < 256) →
      comparePasswords scrypt p (hashPassword scrypt p s) = .ok true := by
    intro s hd hb
    simp [comparePasswords, hsplit s hd, timingSafeEqual, hexDecode_hexEncode _ hb]
  refine ⟨key s1 hd1 hb1, key s2 hd2 hb2, ?_⟩
  intro heq
  have e1 := hsplit s1 hd1
  rw [heq, hsplit s2 hd2] at e1
  exact hne (by injection e1 with _ e2; injection e2 with e3 _; exact e3.symm)

/-- C5 witness: a concrete derivation and the salts a and b. -/
theorem hashPassword_verify_roundtrip_distinct_witness :
    comparePasswords (fun _ _ => [7]) ['p', 'w']
      (hashPassword (fun _ _ => [7]) ['p', 'w'] ['a']) = .ok true ∧
    comparePasswords (fun _ _ => [7]) ['p', 'w']
      (hashPassword (fun _ _ => [7]) ['p', 'w'] ['b']) = .ok true ∧
    hashPassword (fun _ _ => [7]) ['p', 'w'] ['a'] ≠
      hashPassword (fun _ _ => [7]) ['p', 'w'] ['b'] :=
  hashPassword_verify_roundtrip_distinct (fun _ _ => [7]) ['p', 'w'] ['a'] ['b']
    (by decide) (by decide) (by decide) (by decide) (by decide)

/-! ## Claim C7: reset tokens are single-use -/

/-- C7: when at most one stored user carries the hash of raw token T (reset
tokens are drawn from 32 random bytes, so hash collisions between users do
not occur), a successful POST /api/reset-password consuming T clears the
stored hash and expiry, and a second attempt with the same raw token is
rejected with the invalid-or-expired message and leaves the store
untouched. -/
theorem resetToken_single_use (hashTok hashPw : String → String)
    (st st' : List User) (T pw pw2 : String) (now now2 : Nat)
    (huniq : ∀ v ∈ st, v.passwordResetToken = some (hashTok T) →
      ∀ w ∈ st, w.passwordResetToken = some (hashTok T) → v.id = w.id)
    (h1 : resetPasswordHandler hashTok hashPw st T pw now = (st', none))
    (hpw2 : pw2 ≠ "") :
    resetPasswordHandler hashTok hashPw st' T pw2 now2 =
      (st', some "Invalid or expired password reset token.") := by
  rw [resetPasswordHandler] at h1
  split at h1
  · simp [Prod.ext_iff] at h1
  · next hc =>
    split at h1
    · simp [Prod.ext_iff] at h1
    · next u hfind =>
      split at h1
      · simp [Prod.ext_iff] at h1
      · next exp hexp =>
        split at h1
        · simp [Prod.ext_iff] at h1
        · next hnow =>
          have hst' : st' = st.map (fun x =>
              if x.id = u.id then
                { x with
                  password := hashPw pw
                  passwordResetToken := none
                  passwordResetTokenExpiry := none }
              else x) :=
            (congrArg Prod.fst h1).symm
          have humem : u ∈ st := List.mem_of_find?_eq_some hfind
          have hutok : u.passwordResetToken = some (hashTok T) := by
            have := List.find?_some hfind
            simpa using this
          have hnone : getUserByPasswordResetToken st' (hashTok T) = none := by
            rw [getUserByPasswordResetToken, List.find?_eq_none]
            intro x hx
            rw [hst'] at hx
            rcases List.mem_map.mp hx with ⟨y, hy, hxy⟩
            by_cases hid : y.id = u.id
            · rw [← hxy]
              simp [hid]
            · rw [← hxy]
              simp only [hid, if_false, beq_iff_eq]
              intro hytok
              exact hid (huniq y hy hytok u humem hutok)
          have hT : ¬ (T = "" ∨ pw2 = "") := by
            rintro (h | h)
            · exact hc (Or.inl h)
            · exact hpw2 h
          rw [resetPasswordHandler, if_neg hT, hnone]

/-- C7 witness: user bob holds the hashed token rawH; after the successful
reset (already applied in tokUserCleared) the same raw token raw is
rejected and the store is unchanged. -/
theorem resetToken_single_use_witness :
    resetPasswordHandler (fun s => s ++ "H") (fun s => s ++ "P")
      [tokUserCleared] "raw" "again" 60 =
      ([tokUserCleared], some "Invalid or expired password reset token.") :=
  resetToken_single_use (fun s => s ++ "H") (fun s => s ++ "P")
    [tokUser] [tokUserCleared] "raw" "new" "again" 50 60
    (by decide) (by decide) (by decide)

end Backend
